import Mathlib

/-!
Verification of the `remote-claude` host server (`src/host/server.js`), a small
Express application that relays commands between a browser client and an
upstream bridge process. The development shallowly embeds:

* the conversation-history state (`conversationHistory`, a process-global list);
* the `POST /api/command` and `POST /api/respond` handlers (validation, history
  append, bridge forwarding, error responses);
* the `POST /api/reset` handler;
* the `GET /api/events` SSE relay session (byte forwarding, synthetic error
  frame on connect failure, client-disconnect cleanup);
* an IP admission-control policy modelled from the design spec (the policy
  code itself is not part of the host server source).

Handlers are embedded as functions from their inputs (request body, upstream
behaviour, clock) to an ordered trace of observable effects, so that ordering
properties (history appended before the bridge call, one synthetic frame then
close, ...) are visible in the statements.
-/

namespace RemoteClaude

/-- Role of a conversation entry (`role` field: user or assistant in server.js). -/
inductive Role where
  | user
  | assistant
deriving DecidableEq, Repr

/-- One entry of `conversationHistory`:
`\x7b role, content, timestamp: Date.now() \x7d`. -/
structure ConversationEntry where
  role : Role
  content : String
  timestamp : Nat
deriving DecidableEq, Repr

/-- A JavaScript value read from a JSON request body field: either a string or
some non-string value (number, object, null, ...).  A missing field is
`Option.none` at the use site. -/
inductive JsVal where
  | str (s : String)
  | other
deriving DecidableEq, Repr

/-- Outcome of `bridgeRequest` as observed by a handler: the promise either
resolves with a (parsed or raw) body or rejects with an error message. -/
inductive BridgeOutcome where
  | ok (result : String)
  | err (msg : String)
deriving DecidableEq, Repr

/-- An observable effect of one request handler, in program order:
a `conversationHistory.push(...)`, a `conversationHistory = []` assignment,
an outgoing `bridgeRequest(POST, path, payload)`, or the HTTP response sent
back (status code and body). -/
inductive Effect where
  | push (e : ConversationEntry)
  | clearHistory
  | bridgeCall (path : String) (payload : String)
  | respond (status : Nat) (body : String)
deriving DecidableEq, Repr

/-- Replay the history-relevant effects of a trace over a starting history:
`push` appends, `clearHistory` resets to `[]`, responses and bridge calls do
not touch the history. -/
def applyEffects (h : List ConversationEntry) (tr : List Effect) :
    List ConversationEntry :=
  tr.foldl
    (fun acc e =>
      match e with
      | Effect.push x => acc ++ [x]
      | Effect.clearHistory => []
      | Effect.bridgeCall _ _ => acc
      | Effect.respond _ _ => acc)
    h

/-- The outgoing bridge requests of a trace, in order. -/
def bridgeCallsOf (tr : List Effect) : List (String × String) :=
  tr.filterMap
    (fun e =>
      match e with
      | Effect.bridgeCall p b => some (p, b)
      | _ => none)

/-- The entries pushed onto the history by a trace, in order. -/
def pushesOf (tr : List Effect) : List ConversationEntry :=
  tr.filterMap
    (fun e =>
      match e with
      | Effect.push x => some x
      | _ => none)

/-- JavaScript `String.prototype.trim()`: drop leading and trailing
whitespace.  Written over the character list so the kernel can evaluate it. -/
def jsTrim (s : String) : String :=
  String.mk
    (((s.data.dropWhile Char.isWhitespace).reverse.dropWhile
        Char.isWhitespace).reverse)

/-- Validation used by both text endpoints, from
`if (!command || typeof command !== string || !command.trim())`:
the field passes iff it is present, is a string, and is non-empty after
trimming; the accepted value is the trimmed text. -/
def validText (field : Option JsVal) : Option String :=
  match field with
  | some (JsVal.str s) => if jsTrim s = "" then none else some (jsTrim s)
  | _ => none

/-- The response the handler sends after awaiting `bridgeRequest`:
`res.json(result)` on success, `res.status(500).json(...)` on rejection. -/
def bridgeRespondEffect (b : BridgeOutcome) : Effect :=
  match b with
  | BridgeOutcome.ok r => Effect.respond 200 r
  | BridgeOutcome.err m => Effect.respond 500 ("Bridge error: " ++ m)

/-- Effect trace of the `POST /api/command` handler (server.js lines 66-85):
validate `req.body.command`; on failure respond 400 and do nothing else;
on success push a `user` entry with the trimmed command, forward it to the
bridge at `/command`, and respond with the bridge outcome. -/
def apiCommandEffects (field : Option JsVal) (bridge : BridgeOutcome)
    (now : Nat) : List Effect :=
  match validText field with
  | none => [Effect.respond 400 "Command is required"]
  | some t =>
      [Effect.push ⟨Role.user, t, now⟩,
       Effect.bridgeCall "/command" t,
       bridgeRespondEffect bridge]

/-- Effect trace of the `POST /api/respond` handler (server.js lines 88-107):
identical shape to `/api/command` but reads `req.body.response`, forwards to
`/respond`, and uses the message `Response is required`. -/
def apiRespondEffects (field : Option JsVal) (bridge : BridgeOutcome)
    (now : Nat) : List Effect :=
  match validText field with
  | none => [Effect.respond 400 "Response is required"]
  | some t =>
      [Effect.push ⟨Role.user, t, now⟩,
       Effect.bridgeCall "/respond" t,
       bridgeRespondEffect bridge]

/-- Effect trace of the `POST /api/reset` handler (server.js lines 152-160):
signal the bridge (`try \x7b await bridgeRequest(POST, /reset) \x7d catch \x7b\x7d`,
so the trace is the same whether the bridge is up or down), clear the history
(`conversationHistory = []`), and respond `\x7b status: reset \x7d`. -/
def apiResetEffects (bridge : BridgeOutcome) : List Effect :=
  match bridge with
  | BridgeOutcome.ok _ =>
      [Effect.bridgeCall "/reset" "", Effect.clearHistory,
       Effect.respond 200 "reset"]
  | BridgeOutcome.err _ =>
      [Effect.bridgeCall "/reset" "", Effect.clearHistory,
       Effect.respond 200 "reset"]

/-- An event delivered to one of the listeners registered by the
`GET /api/events` handler: a `data` chunk or `end` / `error` from the upstream
response `bridgeRes`, or `close` from the client request `req`. -/
inductive SessionEvent where
  | upstreamChunk (c : String)
  | upstreamEnd
  | upstreamError
  | clientClose
deriving DecidableEq, Repr

/-- What the relay wrote on the client connection: a `res.write` that
succeeded, or the `res.end()` call. -/
inductive ClientOutput where
  | write (s : String)
  | endConn
deriving DecidableEq, Repr

/-- State of one relay session: the ordered client-side output so far, the
number of `res.write` attempts made by the data listener, whether `res.end()`
was called, and whether `bridgeReq.destroy()` was called. -/
structure RelayState where
  outputs : List ClientOutput
  attempted : Nat
  clientEnded : Bool
  upstreamDestroyed : Bool
deriving DecidableEq, Repr

/-- The session state before any listener has fired. -/
def initRelayState : RelayState :=
  { outputs := [], attempted := 0, clientEnded := false,
    upstreamDestroyed := false }

/-- `res.write(chunk)`: the environment `writeOk` says whether the i-th write
succeeds or throws (e.g. the client already disconnected). -/
def resWrite (writeOk : Nat → Bool) (i : Nat) (chunk : String) :
    Except String String :=
  if writeOk i then Except.ok chunk else Except.error "client disconnected"

/-- One listener firing, from server.js lines 120-149:
* `bridgeRes.on(data)`: `try \x7b res.write(chunk) \x7d catch \x7b\x7d` — a
  failed write is swallowed and the session continues;
* `bridgeRes.on(end)` and `bridgeRes.on(error)`: `res.end()`;
* `req.on(close)`: `bridgeReq.destroy()`. -/
def relayStep (writeOk : Nat → Bool) (st : RelayState) :
    SessionEvent → RelayState
  | SessionEvent.upstreamChunk c =>
      match resWrite writeOk st.attempted c with
      | Except.ok _ =>
          { st with outputs := st.outputs ++ [ClientOutput.write c],
                    attempted := st.attempted + 1 }
      | Except.error _ =>
          { st with attempted := st.attempted + 1 }
  | SessionEvent.upstreamEnd =>
      { st with outputs := st.outputs ++ [ClientOutput.endConn],
                clientEnded := true }
  | SessionEvent.upstreamError =>
      { st with outputs := st.outputs ++ [ClientOutput.endConn],
                clientEnded := true }
  | SessionEvent.clientClose =>
      { st with upstreamDestroyed := true }

/-- Run a session from a given state over a sequence of listener events. -/
def relayRunFrom (writeOk : Nat → Bool) (st : RelayState)
    (events : List SessionEvent) : RelayState :=
  events.foldl (relayStep writeOk) st

/-- Run a fresh session over a sequence of listener events. -/
def relayRun (writeOk : Nat → Bool) (events : List SessionEvent) : RelayState :=
  relayRunFrom writeOk initRelayState events

/-- The synthetic SSE error frame the relay writes when the upstream
connection fails (server.js line 140), JSON string escaping elided:
`event: error\ndata: JSON.stringify(\x7b error: err.message \x7d)\n\n`. -/
def syntheticErrorFrame (m : String) : String :=
  "event: error\ndata: \x7b\"error\":\"" ++ m ++ "\"\x7d\n\n"

/-- The upstream side of one relay session: either `bridgeReq` fires `error`
(the connection could not be established), or it connects and delivers a
sequence of listener events. -/
inductive UpstreamConn where
  | connectFail (errMsg : String)
  | connected (events : List SessionEvent)

/-- A whole relay session, from server.js lines 110-150.  On connect failure
the `bridgeReq` error listener writes one synthetic error frame and calls
`res.end()` (lines 139-142); otherwise the registered listeners run over the
delivered events. -/
def relaySession (writeOk : Nat → Bool) : UpstreamConn → RelayState
  | UpstreamConn.connectFail m =>
      { outputs := [ClientOutput.write (syntheticErrorFrame m),
                    ClientOutput.endConn],
        attempted := 0, clientEnded := true, upstreamDestroyed := false }
  | UpstreamConn.connected events => relayRun writeOk events

/-- The strings written on the client connection, in order. -/
def writesOf (l : List ClientOutput) : List String :=
  l.filterMap
    (fun o =>
      match o with
      | ClientOutput.write s => some s
      | ClientOutput.endConn => none)

/-- The data chunks the upstream delivered, in order. -/
def chunkDatas (events : List SessionEvent) : List String :=
  events.filterMap
    (fun e =>
      match e with
      | SessionEvent.upstreamChunk c => some c
      | _ => none)

/-- A request hitting the host server, as far as the conversation history is
concerned. -/
inductive Request where
  | getHistory
  | postCommand (field : Option JsVal)
  | postRespond (field : Option JsVal)
  | getEvents (writeOk : Nat → Bool) (up : UpstreamConn)
  | postReset

/-- How one request transforms `conversationHistory`.  The `GET /api/events`
handler (server.js lines 110-150) contains no reference to
`conversationHistory` at all, so it leaves the history unchanged whatever the
upstream stream carries; `GET /api/history` only reads it. -/
def serverStep (bridge : BridgeOutcome) (now : Nat)
    (h : List ConversationEntry) : Request → List ConversationEntry
  | Request.getHistory => h
  | Request.postCommand f => applyEffects h (apiCommandEffects f bridge now)
  | Request.postRespond f => applyEffects h (apiRespondEffects f bridge now)
  | Request.getEvents _ _ => h
  | Request.postReset => applyEffects h (apiResetEffects bridge)

/-- Modelled from the spec: the IP Matcher function `normalize` (spec section 4.1) —
the access-control code is not part of the host server source, only its admin
front-end is. `normalize` strips the IPv6-mapped-IPv4 prefix `::ffff:` and
maps the IPv6 loopback literal `::1` to the IPv4 loopback literal
`127.0.0.1`; anything else passes through.  Prefix stripping is written over
the character list so the kernel can evaluate it. -/
def normalize (a : String) : String :=
  if a = "::1" then "127.0.0.1"
  else if a.data.take 7 = ("::ffff:").data then String.mk (a.data.drop 7)
  else a

/-- Modelled from the spec: one dotted octet, `0-255`, digits only. -/
def parseOctet (s : String) : Option Nat :=
  match s.toNat? with
  | some n => if n ≤ 255 then some n else none
  | none => none

/-- Modelled from the spec: the IP Matcher function `toNumeric` (spec section 4.1) —
succeeds only for well-formed 4-octet dotted IPv4 addresses, returning the
32-bit value as a natural number; fails for everything else. -/
def toNumeric (a : String) : Option Nat :=
  match a.splitOn "." with
  | [p1, p2, p3, p4] =>
      match parseOctet p1, parseOctet p2, parseOctet p3, parseOctet p4 with
      | some a1, some a2, some a3, some a4 =>
          some (((a1 * 256 + a2) * 256 + a3) * 256 + a4)
      | _, _, _, _ => none
  | _ => none

/-- Modelled from the spec: an access rule (spec section 3) — an exact
address or a CIDR block with a prefix length. -/
inductive AccessRule where
  | exact (addr : String)
  | cidr (addr : String) (prefixLen : Nat)
deriving DecidableEq, Repr

/-- Modelled from the spec: the IP Matcher function match test (spec section 4.1).
Exact rules compare normalized strings; CIDR rules convert both sides with
`normalize` then `toNumeric`, fail closed if either conversion fails, and
otherwise compare the `prefixLen` leading bits (comparison of the values
divided by `2 ^ (32 - prefixLen)`; a prefix of 0 matches everything). -/
def ruleMatches (client : String) : AccessRule → Bool
  | AccessRule.exact a => normalize client = normalize a
  | AccessRule.cidr a p =>
      match toNumeric (normalize client), toNumeric (normalize a) with
      | some c, some b => c / 2 ^ (32 - p) = b / 2 ^ (32 - p)
      | _, _ => false

/-- Modelled from the spec: parsing of one configured static entry (spec
section 4.2 step 2) — `address` or `address/prefix`; malformed entries are
silently skipped (`none`). -/
def parseStaticEntry (s : String) : Option AccessRule :=
  match s.splitOn "/" with
  | [a] => some (AccessRule.exact a)
  | [a, p] =>
      match p.toNat? with
      | some n => if n ≤ 32 then some (AccessRule.cidr a n) else none
      | none => none
  | _ => none

/-- Modelled from the spec: the Access Control Policy function `isAllowed` (spec
section 4.2).  Loopback is allowed unconditionally; otherwise the combined
rule set is the parsed static entries plus one exact rule per dynamic
allow-list entry; an empty combined set fails open; otherwise at least one
rule must match. -/
def isAllowed (staticEntries : List String) (dynamicList : List String)
    (client : String) : Bool :=
  if normalize client = "127.0.0.1" then true
  else
    let rules :=
      staticEntries.filterMap parseStaticEntry
        ++ dynamicList.map AccessRule.exact
    if rules.isEmpty then true
    else rules.any (ruleMatches client)

/-- The two incremental frames and the result frame of the end-to-end
scenario, as SSE chunks (brace characters written with escapes). -/
def incFrame1 : String := "data: \x7b\"type\":\"assistant\",\"text\":\"hi \"\x7d\n\n"

/-- Second incremental frame of the scenario. -/
def incFrame2 : String := "data: \x7b\"type\":\"assistant\",\"text\":\"there\"\x7d\n\n"

/-- Result frame of the scenario, carrying `result: "hi there"`. -/
def resultFrame : String := "data: \x7b\"type\":\"result\",\"result\":\"hi there\"\x7d\n\n"

/-- The scenario stream: two incremental frames, one result frame, then the
upstream ends. -/
def resultScenario : List SessionEvent :=
  [SessionEvent.upstreamChunk incFrame1,
   SessionEvent.upstreamChunk incFrame2,
   SessionEvent.upstreamChunk resultFrame,
   SessionEvent.upstreamEnd]

theorem writesOf_append (a b : List ClientOutput) :
    writesOf (a ++ b) = writesOf a ++ writesOf b := by
  simp [writesOf]

theorem relayRunFrom_cons (wo : Nat → Bool) (st : RelayState)
    (e : SessionEvent) (es : List SessionEvent) :
    relayRunFrom wo st (e :: es) = relayRunFrom wo (relayStep wo st e) es := rfl

theorem relayStep_chunk (wo : Nat → Bool) (st : RelayState) (c : String) :
    relayStep wo st (SessionEvent.upstreamChunk c) =
      if wo st.attempted then
        { st with outputs := st.outputs ++ [ClientOutput.write c],
                  attempted := st.attempted + 1 }
      else { st with attempted := st.attempted + 1 } := by
  by_cases hw : wo st.attempted <;> simp [relayStep, resWrite, hw]

theorem relayRunFrom_attempted (wo : Nat → Bool) (events : List SessionEvent) :
    ∀ st : RelayState,
      (relayRunFrom wo st events).attempted
        = st.attempted + (chunkDatas events).length := by
  induction events with
  | nil => intro st; simp [relayRunFrom, chunkDatas]
  | cons e es ih =>
      intro st
      rw [relayRunFrom_cons, ih]
      cases e with
      | upstreamChunk c =>
          rw [relayStep_chunk]
          split <;> simp +arith [chunkDatas]
      | upstreamEnd => simp [relayStep, chunkDatas]
      | upstreamError => simp [relayStep, chunkDatas]
      | clientClose => simp [relayStep, chunkDatas]

theorem relayRunFrom_writes_all_ok (events : List SessionEvent) :
    ∀ st : RelayState,
      writesOf (relayRunFrom (fun _ => true) st events).outputs
        = writesOf st.outputs ++ chunkDatas events := by
  induction events with
  | nil => intro st; simp [relayRunFrom, chunkDatas]
  | cons e es ih =>
      intro st
      rw [relayRunFrom_cons, ih]
      cases e with
      | upstreamChunk c =>
          rw [relayStep_chunk]
          simp [writesOf, chunkDatas]
      | upstreamEnd => simp [relayStep, writesOf, chunkDatas]
      | upstreamError => simp [relayStep, writesOf, chunkDatas]
      | clientClose => simp [relayStep, chunkDatas]

theorem relayRunFrom_writes_sublist (wo : Nat → Bool)
    (events : List SessionEvent) :
    ∀ st : RelayState,
      List.Sublist (writesOf (relayRunFrom wo st events).outputs)
        (writesOf st.outputs ++ chunkDatas events) := by
  induction events with
  | nil => intro st; simp [relayRunFrom, chunkDatas]
  | cons e es ih =>
      intro st
      rw [relayRunFrom_cons]
      cases e with
      | upstreamChunk c =>
          rw [relayStep_chunk]
          by_cases hw : wo st.attempted
          · rw [if_pos hw]
            refine (ih _).trans ?_
            simp [writesOf, chunkDatas]
          · rw [if_neg hw]
            refine (ih _).trans ?_
            simp only [chunkDatas, List.filterMap_cons]
            exact List.Sublist.append_left
              (List.sublist_cons_self c (chunkDatas es)) _
      | upstreamEnd =>
          refine (ih _).trans ?_
          simp [relayStep, writesOf, chunkDatas]
      | upstreamError =>
          refine (ih _).trans ?_
          simp [relayStep, writesOf, chunkDatas]
      | clientClose =>
          refine (ih _).trans ?_
          simp [relayStep, chunkDatas]

theorem relayStep_destroyed_mono (wo : Nat → Bool) (st : RelayState)
    (e : SessionEvent) (h : st.upstreamDestroyed = true) :
    (relayStep wo st e).upstreamDestroyed = true := by
  cases e with
  | upstreamChunk c => rw [relayStep_chunk]; split <;> simpa
  | upstreamEnd => simpa [relayStep]
  | upstreamError => simpa [relayStep]
  | clientClose => simp [relayStep]

theorem relayRunFrom_destroyed_mono (wo : Nat → Bool)
    (events : List SessionEvent) :
    ∀ st : RelayState, st.upstreamDestroyed = true →
      (relayRunFrom wo st events).upstreamDestroyed = true := by
  induction events with
  | nil => intro st h; simpa [relayRunFrom]
  | cons e es ih =>
      intro st h
      rw [relayRunFrom_cons]
      exact ih _ (relayStep_destroyed_mono wo st e h)

theorem relayRunFrom_clientClose_destroys (wo : Nat → Bool)
    (events : List SessionEvent) :
    ∀ st : RelayState, SessionEvent.clientClose ∈ events →
      (relayRunFrom wo st events).upstreamDestroyed = true := by
  induction events with
  | nil => intro st h; cases h
  | cons e es ih =>
      intro st h
      rw [relayRunFrom_cons]
      rcases List.mem_cons.mp h with he | hes
      · subst he
        exact relayRunFrom_destroyed_mono wo es _ (by simp [relayStep])
      · exact ih _ hes

/-- C1 (counterexample): the claim says that after two incremental frames and
one result frame with result "hi there" arrive on the relayed event stream,
the history gains exactly one assistant entry with that content.  On the
code, running the scenario through `GET /api/events` leaves an empty history
empty — it gains zero entries, not one — even though all three frames were
relayed to the client. -/
theorem c1_result_frame_no_history_entry :
    serverStep (BridgeOutcome.ok "") 0 []
        (Request.getEvents (fun _ => true)
          (UpstreamConn.connected resultScenario)) = []
    ∧ (serverStep (BridgeOutcome.ok "") 0 []
        (Request.getEvents (fun _ => true)
          (UpstreamConn.connected resultScenario))).length ≠ 1
    ∧ writesOf (relaySession (fun _ => true)
        (UpstreamConn.connected resultScenario)).outputs
        = [incFrame1, incFrame2, resultFrame] := by
  refine ⟨rfl, by simp [serverStep], ?_⟩
  rfl

/-- C1 (amended): payloads arriving on the relayed event stream never add
conversation-history entries — the `GET /api/events` handler forwards the
raw bytes and does not touch `conversationHistory` for any upstream stream,
result frames included. -/
theorem relay_stream_never_touches_history (bridge : BridgeOutcome)
    (now : Nat) (h : List ConversationEntry) (wo : Nat → Bool)
    (up : UpstreamConn) :
    serverStep bridge now h (Request.getEvents wo up) = h := rfl

/-- C2: whenever `normalize(clientAddress)` equals the IPv4 loopback literal,
`isAllowed` is true for every configured static rule set and every state of
the dynamic allow-list — loopback (and its IPv6-mapped forms, which normalize
to it) is admitted regardless of the rules. -/
theorem loopback_always_allowed (staticEntries dynamicList : List String)
    (client : String) (hc : normalize client = "127.0.0.1") :
    isAllowed staticEntries dynamicList client = true := by
  simp [isAllowed, hc]

/-- Witness for C2: the IPv6-mapped loopback `::ffff:127.0.0.1` normalizes to
the loopback literal and is admitted even under the rule set
`["10.0.0.0/8"]` (which matches neither form) with an empty dynamic list. -/
theorem loopback_always_allowed_witness :
    normalize "::ffff:127.0.0.1" = "127.0.0.1"
    ∧ isAllowed ["10.0.0.0/8"] [] "::ffff:127.0.0.1" = true :=
  ⟨by decide, loopback_always_allowed ["10.0.0.0/8"] [] "::ffff:127.0.0.1"
    (by decide)⟩

/-- C3: when the upstream connection cannot be established, the relay emits
exactly one synthetic error frame describing the failure and then closes the
client connection; and in every connected session each string written to the
client is one of the chunks received from upstream (a sublist of them, in
order), so the connect-failure frame is the only output the relay
manufactures itself. -/
theorem connect_failure_single_synthetic_frame (wo : Nat → Bool) :
    (∀ m : String,
      (relaySession wo (UpstreamConn.connectFail m)).outputs
        = [ClientOutput.write (syntheticErrorFrame m), ClientOutput.endConn]
      ∧ (relaySession wo (UpstreamConn.connectFail m)).clientEnded = true)
    ∧ ∀ events : List SessionEvent,
        List.Sublist
          (writesOf (relaySession wo (UpstreamConn.connected events)).outputs)
          (chunkDatas events) := by
  refine ⟨fun m => ⟨rfl, rfl⟩, fun events => ?_⟩
  have h := relayRunFrom_writes_sublist wo events initRelayState
  simpa [relaySession, relayRun, initRelayState, writesOf] using h

/-- C4: if the client connection closes during a relay session, the in-flight
upstream request is destroyed (`bridgeReq.destroy()`), whatever else happens
in the session — the destroyed flag is set by the close listener and never
cleared. -/
theorem client_close_destroys_upstream (wo : Nat → Bool)
    (events : List SessionEvent)
    (h : SessionEvent.clientClose ∈ events) :
    (relayRun wo events).upstreamDestroyed = true :=
  relayRunFrom_clientClose_destroys wo events initRelayState h

/-- Witness for C4: in a session that receives one chunk and then a client
disconnect, the upstream request ends up destroyed. -/
theorem client_close_destroys_upstream_witness :
    SessionEvent.clientClose ∈
        [SessionEvent.upstreamChunk "x", SessionEvent.clientClose]
    ∧ (relayRun (fun _ => true)
        [SessionEvent.upstreamChunk "x",
         SessionEvent.clientClose]).upstreamDestroyed = true :=
  ⟨by simp, client_close_destroys_upstream (fun _ => true)
    [SessionEvent.upstreamChunk "x", SessionEvent.clientClose] (by simp)⟩

/-- C5: when the required text field is missing, not a string, or empty after
trimming, both `POST /api/command` and `POST /api/respond` respond with a 400
error message as their only effect: the history is unchanged and no bridge
request is made. -/
theorem invalid_body_rejected_without_side_effects (f : Option JsVal)
    (bridge : BridgeOutcome) (now : Nat) (h : List ConversationEntry)
    (hv : validText f = none) :
    apiCommandEffects f bridge now
        = [Effect.respond 400 "Command is required"]
    ∧ applyEffects h (apiCommandEffects f bridge now) = h
    ∧ bridgeCallsOf (apiCommandEffects f bridge now) = []
    ∧ apiRespondEffects f bridge now
        = [Effect.respond 400 "Response is required"]
    ∧ applyEffects h (apiRespondEffects f bridge now) = h
    ∧ bridgeCallsOf (apiRespondEffects f bridge now) = [] := by
  simp [apiCommandEffects, apiRespondEffects, hv, applyEffects, bridgeCallsOf]

/-- Witness for C5: a whitespace-only command field is invalid; the handler
leaves an empty history empty. -/
theorem invalid_body_rejected_witness :
    validText (some (JsVal.str " ")) = none
    ∧ applyEffects []
        (apiCommandEffects (some (JsVal.str " ")) (BridgeOutcome.ok "ok") 7)
        = [] :=
  ⟨by decide,
    (invalid_body_rejected_without_side_effects (some (JsVal.str " "))
      (BridgeOutcome.ok "ok") 7 [] (by decide)).2.1⟩

/-- C6: a valid command (non-empty after trimming) makes `POST /api/command`
push exactly one `user` entry, whose content is the trimmed text and whose
timestamp is the submission clock, as the first effect of the trace — before
the command is forwarded to the bridge, which is the second effect. -/
theorem valid_command_appends_user_entry_before_bridge (f : Option JsVal)
    (t : String) (bridge : BridgeOutcome) (now : Nat)
    (h : List ConversationEntry) (hv : validText f = some t) :
    apiCommandEffects f bridge now
        = [Effect.push ⟨Role.user, t, now⟩, Effect.bridgeCall "/command" t,
           bridgeRespondEffect bridge]
    ∧ applyEffects h (apiCommandEffects f bridge now)
        = h ++ [⟨Role.user, t, now⟩]
    ∧ pushesOf (apiCommandEffects f bridge now) = [⟨Role.user, t, now⟩] := by
  cases bridge <;>
    simp [apiCommandEffects, hv, applyEffects, pushesOf, bridgeRespondEffect]

/-- Witness for C6: submitting `" hello "` appends exactly the `user` entry
with trimmed content `"hello"`. -/
theorem valid_command_appends_user_entry_witness :
    validText (some (JsVal.str " hello ")) = some "hello"
    ∧ applyEffects []
        (apiCommandEffects (some (JsVal.str " hello "))
          (BridgeOutcome.ok "ok") 7)
        = [⟨Role.user, "hello", 7⟩] :=
  ⟨by decide,
    (valid_command_appends_user_entry_before_bridge
      (some (JsVal.str " hello ")) "hello" (BridgeOutcome.ok "ok") 7 []
      (by decide)).2.1⟩

/-- C7: for every prior history and whatever the bridge outcome (up or down),
`POST /api/reset` leaves the history empty for the next read, and its trace
contains the `POST /reset` bridge call that signals the upstream to reset. -/
theorem reset_clears_history_and_signals_bridge
    (h : List ConversationEntry) (bridge : BridgeOutcome) (now : Nat) :
    serverStep bridge now h Request.postReset = []
    ∧ applyEffects h (apiResetEffects bridge) = []
    ∧ ("/reset", "") ∈ bridgeCallsOf (apiResetEffects bridge) := by
  cases bridge <;>
    simp [serverStep, apiResetEffects, applyEffects, bridgeCallsOf]

/-- C8: in a relay session whose client accepts every write, the sequence of
strings written to the client equals the sequence of chunks received from
upstream — each chunk verbatim, in arrival order; and for any client
behaviour the written strings are a sublist of the received chunks, so order
is preserved. -/
theorem chunks_forwarded_verbatim_in_order :
    (∀ events : List SessionEvent,
      writesOf (relayRun (fun _ => true) events).outputs = chunkDatas events)
    ∧ ∀ (wo : Nat → Bool) (events : List SessionEvent),
        List.Sublist (writesOf (relayRun wo events).outputs)
          (chunkDatas events) := by
  constructor
  · intro events
    have h := relayRunFrom_writes_all_ok events initRelayState
    simpa [relayRun, initRelayState, writesOf] using h
  · intro wo events
    have h := relayRunFrom_writes_sublist wo events initRelayState
    simpa [relayRun, initRelayState, writesOf] using h

/-- C9: a failed client write is swallowed by the data listener
`try/catch`: whatever the pattern of write failures, the session processes
every chunk (the number of write attempts equals the number of received
chunks) and keeps going — concretely, when the first write fails, the second
chunk is still forwarded. -/
theorem write_failure_swallowed_session_continues :
    (∀ (wo : Nat → Bool) (events : List SessionEvent),
      (relayRun wo events).attempted = (chunkDatas events).length)
    ∧ writesOf (relayRun (fun i => i != 0)
        [SessionEvent.upstreamChunk "a", SessionEvent.upstreamChunk "b",
         SessionEvent.upstreamEnd]).outputs = ["b"] := by
  constructor
  · intro wo events
    have h := relayRunFrom_attempted wo events initRelayState
    simpa [relayRun, initRelayState] using h
  · rfl

/-- C10: if the bridge request fails after validation passed, both
`POST /api/command` and `POST /api/respond` respond 500 with a bridge-error
body while the `user` entry already pushed stays in the history — the
mutation is not rolled back. -/
theorem bridge_failure_keeps_history_and_responds_500 (f : Option JsVal)
    (t m : String) (now : Nat) (h : List ConversationEntry)
    (hv : validText f = some t) :
    apiCommandEffects f (BridgeOutcome.err m) now
        = [Effect.push ⟨Role.user, t, now⟩, Effect.bridgeCall "/command" t,
           Effect.respond 500 ("Bridge error: " ++ m)]
    ∧ applyEffects h (apiCommandEffects f (BridgeOutcome.err m) now)
        = h ++ [⟨Role.user, t, now⟩]
    ∧ apiRespondEffects f (BridgeOutcome.err m) now
        = [Effect.push ⟨Role.user, t, now⟩, Effect.bridgeCall "/respond" t,
           Effect.respond 500 ("Bridge error: " ++ m)]
    ∧ applyEffects h (apiRespondEffects f (BridgeOutcome.err m) now)
        = h ++ [⟨Role.user, t, now⟩] := by
  simp [apiCommandEffects, apiRespondEffects, hv, applyEffects,
    bridgeRespondEffect]

/-- Witness for C10: with the bridge down, the valid command `"hi"` still
ends up in the history while the response is the 500 trace. -/
theorem bridge_failure_keeps_history_witness :
    validText (some (JsVal.str "hi")) = some "hi"
    ∧ applyEffects []
        (apiCommandEffects (some (JsVal.str "hi"))
          (BridgeOutcome.err "connect ECONNREFUSED") 3)
        = [⟨Role.user, "hi", 3⟩] :=
  ⟨by decide,
    (bridge_failure_keeps_history_and_responds_500 (some (JsVal.str "hi"))
      "hi" "connect ECONNREFUSED" 3 [] (by decide)).2.1⟩

end RemoteClaude
